import Mathlib

/-!
Verification development for the XTRN server library
(`src/xtrnlib/index.ts`): the admission-gate durable object
(`XTRNState`), the tool-route validation pipeline
(`XTRNServer.setupToolMiddleware` / `setupToolRoute`), tool
registration (`registerTool`), and the metadata assembler
(`buildDetails`).

External collaborators (the JSON value space, the platform `atob`
base64 decoder, `JSON.parse`, and the Zod validation engine) are
modelled abstractly, exactly as the library consumes them: `atob` and
`JSON.parse` are partial decoding functions supplied as parameters,
and a Zod v4 schema is a pair of a validation function
(`z.safeParse`) and a rendered JSON-schema document
(`z.toJSONSchema`).  The user-config schema generated by
`generateUserConfigSchema` is modelled concretely from the source
(one required, type-checked field per declared `(key, type)` pair,
unknown keys stripped — the semantics of `z.object` over
`z.string/number/boolean` fields).
-/

/-- JSON values, the data interchanged by the pipeline. -/
inductive Json where
  | null : Json
  | bool : Bool → Json
  | num : Int → Json
  | str : String → Json
  | arr : List Json → Json
  | obj : List (String × Json) → Json

/- ---------- Admission gate actor (`XTRNState`) ---------- -/

/-- The durable storage backing one gate actor: the single persisted
key `"refuseRequests"` (absent when never written or deleted). -/
structure Storage where
  refuseRequests : Option Bool

/-- In-memory fields of the `XTRNState` durable object:
`activeRequests` and `refuseRequests` (lines 16-17 of the source). -/
structure GateState where
  activeRequests : Int
  refuseRequests : Bool

/-- The `XTRNState` constructor: a fresh instance starts with
`activeRequests = 0` and loads `refuseRequests` from durable storage
(`(await this.ctx.storage.get("refuseRequests")) || false`) inside
`blockConcurrencyWhile`. -/
def XTRNState.create (st : Storage) : GateState :=
  { activeRequests := 0, refuseRequests := st.refuseRequests.getD false }

/-- `tryAcquire()`: when draining, refuse without mutation and report
the current count; otherwise increment and allow.  Returns the new
actor state together with `{ allowed, activeRequests }`. -/
def XTRNState.tryAcquire (s : GateState) : GateState × Bool × Int :=
  if s.refuseRequests then
    (s, false, s.activeRequests)
  else
    ({ s with activeRequests := s.activeRequests + 1 }, true,
      s.activeRequests + 1)

/-- `release()`: `activeRequests = Math.max(0, activeRequests - 1)`;
returns the new state and the new count. -/
def XTRNState.release (s : GateState) : GateState × Int :=
  let a := max 0 (s.activeRequests - 1)
  ({ s with activeRequests := a }, a)

/-- `windDown()`: set `refuseRequests = true`, persist the flag
(`storage.put("refuseRequests", true)`), return the current
`activeRequests`. -/
def XTRNState.windDown (s : GateState) (_st : Storage) :
    GateState × Storage × Int :=
  ({ s with refuseRequests := true }, { refuseRequests := some true },
    s.activeRequests)

/-- `getState()`: report `{ activeRequests, refusingRequests }`
without mutation. -/
def XTRNState.getState (s : GateState) : Int × Bool :=
  (s.activeRequests, s.refuseRequests)

/-- `reset()`: counter to 0, flag to false, delete the durable key. -/
def XTRNState.reset (_s : GateState) (_st : Storage) :
    GateState × Storage :=
  ({ activeRequests := 0, refuseRequests := false },
    { refuseRequests := none })

/-- One call against the gate actor, for reasoning about call
sequences (the actor serializes them, so a sequence is the faithful
concurrency model). -/
inductive GateOp where
  | acq : GateOp
  | rel : GateOp
  | wind : GateOp
  | getSt : GateOp
  | rst : GateOp
  deriving DecidableEq

/-- Apply one gate call to the actor-and-storage pair, discarding the
returned value. -/
def runOp (p : GateState × Storage) (o : GateOp) : GateState × Storage :=
  match o with
  | GateOp.acq => ((XTRNState.tryAcquire p.1).1, p.2)
  | GateOp.rel => ((XTRNState.release p.1).1, p.2)
  | GateOp.wind =>
      ((XTRNState.windDown p.1 p.2).1, (XTRNState.windDown p.1 p.2).2.1)
  | GateOp.getSt => p
  | GateOp.rst => XTRNState.reset p.1 p.2

/-- Run a sequence of gate calls left to right. -/
def runOps (p : GateState × Storage) (ops : List GateOp) :
    GateState × Storage :=
  ops.foldl runOp p

/-- The initial deployment: empty durable storage, fresh actor. -/
def initialGate : GateState × Storage :=
  (XTRNState.create { refuseRequests := none }, { refuseRequests := none })

/-- Number of `tryAcquire` calls in a sequence. -/
def countAcq : List GateOp → Nat
  | [] => 0
  | GateOp.acq :: os => countAcq os + 1
  | _ :: os => countAcq os

/-- Number of `release` calls in a sequence. -/
def countRel : List GateOp → Nat
  | [] => 0
  | GateOp.rel :: os => countRel os + 1
  | _ :: os => countRel os

/- ---------- Declarations (config, tools, server) ---------- -/

/-- The three primitive user-config field types. -/
inductive FieldType where
  | string : FieldType
  | number : FieldType
  | boolean : FieldType
  deriving DecidableEq

/-- One declared user-config field: `{ key, type }`. -/
structure UserField where
  key : String
  type : FieldType
  deriving DecidableEq

/-- Inline OAuth descriptor declared by the developer (`OAuthConfig`):
secrets are *not* part of it. -/
structure OAuthConfig where
  provider : String
  authorization_url : String
  token_url : String
  scopes : List String

/-- `ConfigType`: the server-level declaration shape. -/
structure ConfigType where
  userConfig : Option (List UserField)
  oauthConfig : Option OAuthConfig

/-- The OAuth environment bindings (`OAuthEnvBindings`); each is
`none` when the binding is absent from the environment. -/
structure OAuthEnvB where
  OAUTH_CLIENT_ID : Option String
  OAUTH_CLIENT_SECRET : Option String
  OAUTH_CALLBACK_URL : Option String

/-- Tool tags (`ToolTag`). -/
inductive ToolTag where
  | mutation : ToolTag
  | destructive : ToolTag
  deriving DecidableEq

/-- A rendered tool entry of the `/details` document. -/
structure ToolSummary where
  name : String
  description : String
  schema : Json
  tags : List ToolTag

/-- `FullOAuthDetails`: the declared descriptor merged with
environment-resolved secret fields. -/
structure FullOAuthDetails where
  provider : String
  client_id : String
  client_secret : String
  authorization_url : String
  token_url : String
  scopes : List String
  callback_url : String

/-- `ServerDetails`: the `/details` self-description document. -/
structure ServerDetailsB where
  name : String
  version : String
  oauth : Option FullOAuthDetails
  config : List UserField
  tools : List ToolSummary

/-- Response bodies: plain text, handler JSON, or the structured
documents the framework routes serialize with `c.json`. -/
inductive Body where
  | text : String → Body
  | json : Json → Body
  | detailsDoc : ServerDetailsB → Body
  | windDownMsg : String → Int → Body
  | stateMsg : Int → Bool → Body
  | resetMsg : String → Body

/-- An HTTP response: status code and body. -/
structure Response where
  status : Nat
  body : Body

/-- `XTRNResponse.text`: 200 with a text body. -/
def XTRNResponse.text (s : String) : Response := ⟨200, Body.text s⟩

/-- `XTRNResponse.json`: 200 with a JSON body. -/
def XTRNResponse.json (j : Json) : Response := ⟨200, Body.json j⟩

/-- `XTRNResponse.badRequestArgs`: 400 with the reason as text. -/
def XTRNResponse.badRequestArgs (reason : String) : Response :=
  ⟨400, Body.text reason⟩

/-- `XTRNResponse.error`: 500 with the error message as text. -/
def XTRNResponse.error (e : String) : Response := ⟨500, Body.text e⟩

/-- `XTRNResponse.unauthorized`: 401 with an empty body. -/
def XTRNResponse.unauthorized : Response := ⟨401, Body.text ""⟩

/-- The `ctx.oauth` object handed to OAuth handlers
(`OAuthContextConfig`).  The three environment-sourced fields are
`none` when the corresponding binding is absent (JS `undefined`). -/
structure OAuthContextConfig where
  client_id : Option String
  client_secret : Option String
  token_url : String
  callback_url : Option String

/-- The assembled request context handed to a tool handler:
`ctx.req` (validated params), `ctx.config` (validated user config),
and — on OAuth servers with a decoded token — `ctx.token`
(`refresh_token`) and `ctx.oauth`. -/
structure Ctx where
  req : Json
  config : Json
  token : Option String
  oauth : Option OAuthContextConfig

/-- A Zod v4 schema as the library consumes it: `z.safeParse`
(validate, returning the normalized value or a structured error
rendered to a string) and `z.toJSONSchema` (the rendered document). -/
structure Schema where
  validate : Json → Except String Json
  render : Json

/-- A registered tool (`Tool<T>`).  A handler either returns a
response or throws; a thrown error is carried as its message
string. -/
structure Tool where
  name : String
  description : String
  schema : Schema
  tags : List ToolTag
  handler : Ctx → Except String Response

/-- Registration options for `registerTool`.  `schemaIsZod4` models
the runtime duck-type check `isZod4` (`"_zod" in schema`): a caller
may hand in a Zod v3 schema, which fails the check. -/
structure ToolOptions where
  name : String
  description : String
  schemaIsZod4 : Bool
  schema : Schema
  tags : Option (List ToolTag)
  handler : Ctx → Except String Response

/-- A constructed `XTRNServer`: declaration plus registered tools and
the generated user-config schema. -/
structure XTRNServer where
  name : String
  version : String
  config : ConfigType
  tools : List Tool
  userConfigSchema : Option (List UserField)

/-- `generateUserConfigSchema`: `null` when `userConfig` is absent or
empty, otherwise the `z.object` built from the declared fields
(represented by the field list itself; its validation semantics is
`validateUserConfig`). -/
def generateUserConfigSchema :
    Option (List UserField) → Option (List UserField)
  | none => none
  | some [] => none
  | some fs => some fs

/-- The `XTRNServer` constructor: stores the declaration, starts with
no tools, and generates the user-config schema. -/
def XTRNServer.create (name version : String) (config : ConfigType) :
    XTRNServer :=
  { name := name, version := version, config := config, tools := [],
    userConfigSchema := generateUserConfigSchema config.userConfig }

/-- Build the stored `Tool` record from registration options
(`tags: options.tags ?? []`). -/
def mkTool (o : ToolOptions) : Tool :=
  { name := o.name, description := o.description, schema := o.schema,
    tags := o.tags.getD [], handler := o.handler }

/-- `registerTool`: throws when the schema is not Zod v4, otherwise
appends the tool to the registry (and registers its route).  No other
check is performed. -/
def registerTool (s : XTRNServer) (o : ToolOptions) :
    Except String XTRNServer :=
  if !o.schemaIsZod4 then
    Except.error ("Tool \"" ++ o.name ++
      "\" must use a Zod v4 schema. Zod v3 schemas are not supported.")
  else
    Except.ok { s with tools := s.tools ++ [mkTool o] }

/- ---------- The per-request tool pipeline ---------- -/

/-- The platform decoding primitives the route consumes: `atob`
(base64 decode, throwing on malformed input) and `JSON.parse`
(throwing on malformed input), both modelled as partial functions. -/
structure ExtOps where
  atob : String → Option String
  parseJson : String → Option Json

/-- An inbound tool request: the two optional headers (raw values of
`X-XTRN-Config` and `X-XTRN-Token`) and the raw body text. -/
structure Request where
  configHeader : Option String
  tokenHeader : Option String
  body : String

/-- Observable pipeline events, for stating ordering and release
properties: the middleware's `tryAcquire` (with its verdict) and
`release`, the attempt to parse the request body
(`honoCtx.req.json()`), and the handler invocation with its assembled
context. -/
inductive Event where
  | acquireEv : Bool → Event
  | releaseEv : Event
  | parseBodyEv : Event
  | invokeEv : Ctx → Event

/-- Number of `release()` calls recorded in an event trace. -/
def countReleaseEv : List Event → Nat
  | [] => 0
  | Event.releaseEv :: es => countReleaseEv es + 1
  | _ :: es => countReleaseEv es

/-- Number of body-parse attempts recorded in an event trace. -/
def countParseBodyEv : List Event → Nat
  | [] => 0
  | Event.parseBodyEv :: es => countParseBodyEv es + 1
  | _ :: es => countParseBodyEv es

/-- Number of handler invocations recorded in an event trace. -/
def countInvokeEv : List Event → Nat
  | [] => 0
  | Event.invokeEv _ :: es => countInvokeEv es + 1
  | _ :: es => countInvokeEv es

/-- One declared field's Zod check: `z.string()` / `z.number()` /
`z.boolean()` applied to a JSON value. -/
def checkType : FieldType → Json → Bool
  | FieldType.string, Json.str _ => true
  | FieldType.number, Json.num _ => true
  | FieldType.boolean, Json.bool _ => true
  | _, _ => false

/-- Validate the declared fields against the key-value pairs of the
decoded config object: every declared key required and type-checked,
unknown keys stripped (the `z.object` output contains exactly the
declared keys). -/
def validateFields (kvs : List (String × Json)) :
    List UserField → Except String (List (String × Json))
  | [] => Except.ok []
  | f :: fs =>
      match List.lookup f.key kvs with
      | none => Except.error ("missing required key " ++ f.key)
      | some v =>
          if checkType f.type v then
            match validateFields kvs fs with
            | Except.error e => Except.error e
            | Except.ok rest => Except.ok ((f.key, v) :: rest)
          else Except.error ("invalid type for key " ++ f.key)

/-- `z.safeParse(userConfigSchema, value)` for the generated
user-config schema: the input must be an object whose declared keys
all validate. -/
def validateUserConfig (fields : List UserField) (j : Json) :
    Except String Json :=
  match j with
  | Json.obj kvs => (validateFields kvs fields).map Json.obj
  | _ => Except.error "expected object"

/-- Pipeline step 2 (source lines 386-395): `userConfig` starts as the
empty object and the header is only decoded under the JS truthiness
guard `if (configHeader)` — an absent header *and* a present header
with the empty value (falsy) both leave the empty object; a truthy
header is base64-decoded then JSON-parsed, either failure yielding
the 400 config-header response. -/
def parseConfigHeader (ext : ExtOps) (configHeader : Option String) :
    Except Response Json :=
  match configHeader with
  | none => Except.ok (Json.obj [])
  | some h =>
      if h == "" then Except.ok (Json.obj []) else
      match ext.atob h with
      | none =>
          Except.error (XTRNResponse.badRequestArgs
            "Invalid X-XTRN-Config header: must be base64-encoded JSON")
      | some decoded =>
          match ext.parseJson decoded with
          | none =>
              Except.error (XTRNResponse.badRequestArgs
                "Invalid X-XTRN-Config header: must be base64-encoded JSON")
          | some j => Except.ok j

/-- Pipeline step 3 (source lines 397-410): when a user-config schema
was generated, validate and substitute the normalized output; a
failure yields the 400 config-validation response. -/
def validateConfigJson (ucs : Option (List UserField)) (j : Json) :
    Except Response Json :=
  match ucs with
  | none => Except.ok j
  | some fields =>
      match validateUserConfig fields j with
      | Except.error e =>
          Except.error (XTRNResponse.badRequestArgs
            ("Config validation failed: " ++ e))
      | Except.ok v => Except.ok v

/-- Pipeline step 4a (source lines 412-422): decode the token header
when present; a base64 failure yields the 400 token-header
response. -/
def decodeToken (ext : ExtOps) (tokenHeader : Option String) :
    Except Response (Option String) :=
  match tokenHeader with
  | none => Except.ok none
  | some h =>
      match ext.atob h with
      | none =>
          Except.error (XTRNResponse.badRequestArgs
            "Invalid X-XTRN-Token header: must be base64-encoded")
      | some t => Except.ok (some t)

/-- JS truthiness of the decoded `refreshToken : string | null`:
`null` and the empty string are falsy. -/
def tokenTruthy : Option String → Bool
  | none => false
  | some s => !(s == "")

/-- Pipeline step 7 (source lines 447-475): attach the validated
params and config; on an OAuth server with a truthy token, attach
`ctx.token` and `ctx.oauth` with the environment-resolved secret
fields. -/
def buildCtx (cfg : ConfigType) (envB : OAuthEnvB)
    (params config : Json) (refreshToken : Option String) : Ctx :=
  match cfg.oauthConfig with
  | some oc =>
      if tokenTruthy refreshToken then
        { req := params, config := config, token := refreshToken,
          oauth := some
            { client_id := envB.OAUTH_CLIENT_ID,
              client_secret := envB.OAUTH_CLIENT_SECRET,
              token_url := oc.token_url,
              callback_url := envB.OAUTH_CALLBACK_URL } }
      else
        { req := params, config := config, token := none, oauth := none }
  | none => { req := params, config := config, token := none, oauth := none }

/-- The POST `/tools/{name}` route handler (`setupToolRoute`): the
fixed-order pipeline — config-header decode, config validation,
token decode, token-required check, body parse, body validation,
context assembly, handler invocation — with every thrown handler
error caught and mapped to a 500 carrying its message.  Returns the
response together with the trace of observable events. -/
def toolRoute (ext : ExtOps) (envB : OAuthEnvB) (cfg : ConfigType)
    (ucs : Option (List UserField)) (tool : Tool) (req : Request) :
    Response × List Event :=
  match parseConfigHeader ext req.configHeader with
  | Except.error r => (r, [])
  | Except.ok uc0 =>
  match validateConfigJson ucs uc0 with
  | Except.error r => (r, [])
  | Except.ok uc =>
  match decodeToken ext req.tokenHeader with
  | Except.error r => (r, [])
  | Except.ok rt =>
  if cfg.oauthConfig.isSome && !tokenTruthy rt then
    (XTRNResponse.badRequestArgs
      "X-XTRN-Token header is required for OAuth-enabled servers", [])
  else
    match ext.parseJson req.body with
    | none =>
        (XTRNResponse.badRequestArgs "Invalid JSON body", [Event.parseBodyEv])
    | some body =>
    match tool.schema.validate body with
    | Except.error e =>
        (XTRNResponse.badRequestArgs
          ("Tool params validation failed: " ++ e), [Event.parseBodyEv])
    | Except.ok params =>
        let ctx := buildCtx cfg envB params uc rt
        ((match tool.handler ctx with
          | Except.error msg => XTRNResponse.error msg
          | Except.ok resp => resp),
          [Event.parseBodyEv, Event.invokeEv ctx])

/-- `buildDetails`: the `/details` document — name, version, the
declared OAuth descriptor merged with environment-resolved secrets
(each absent binding resolved to `""` by `?? ""`), the declared
user-config fields (`|| []`), and the rendered tool summaries. -/
def buildDetails (s : XTRNServer) (envB : OAuthEnvB) : ServerDetailsB :=
  { name := s.name, version := s.version,
    oauth := s.config.oauthConfig.map (fun oc =>
      { provider := oc.provider,
        authorization_url := oc.authorization_url,
        token_url := oc.token_url, scopes := oc.scopes,
        client_id := envB.OAUTH_CLIENT_ID.getD "",
        client_secret := envB.OAUTH_CLIENT_SECRET.getD "",
        callback_url := envB.OAUTH_CALLBACK_URL.getD "" }),
    config := s.config.userConfig.getD [],
    tools := s.tools.map (fun t =>
      { name := t.name, description := t.description,
        schema := t.schema.render, tags := t.tags }) }

/-- The routes the server mounts: tool routes (guarded by the
admission middleware) and the four framework routes. -/
inductive RouteKey where
  | tool : String → RouteKey
  | details : RouteKey
  | windDownRoute : RouteKey
  | activeRequestsRoute : RouteKey
  | resetRoute : RouteKey

/-- Deployment state threaded through a request: the gate actor and
its durable storage. -/
structure Sys where
  gate : GateState
  storage : Storage

/-- One full request against the mounted app.  Tool routes pass
through `setupToolMiddleware`: `tryAcquire`, 503 on refusal with no
release, otherwise run the matched route (`next()`; Hono's first
matching registration wins, a missing tool being the 404 fallback)
with `release` guaranteed in `finally`.  `/details`, `/wind-down`,
`/active-requests` and `/reset` are mounted outside `/tools/*` and
bypass the middleware. -/
def handleRequest (ext : ExtOps) (envB : OAuthEnvB) (server : XTRNServer)
    (route : RouteKey) (req : Request) (sys : Sys) :
    Response × Sys × List Event :=
  match route with
  | RouteKey.tool name =>
      let r := XTRNState.tryAcquire sys.gate
      if !r.2.1 then
        (⟨503, Body.text "Server is winding down"⟩,
          ⟨r.1, sys.storage⟩, [Event.acquireEv false])
      else
        let inner :=
          match server.tools.find? (fun t => t.name == name) with
          | some t => toolRoute ext envB server.config server.userConfigSchema t req
          | none => (⟨404, Body.text "404 Not Found"⟩, [])
        (inner.1, ⟨(XTRNState.release r.1).1, sys.storage⟩,
          Event.acquireEv true :: inner.2 ++ [Event.releaseEv])
  | RouteKey.details =>
      (⟨200, Body.detailsDoc (buildDetails server envB)⟩, sys, [])
  | RouteKey.windDownRoute =>
      let w := XTRNState.windDown sys.gate sys.storage
      (⟨200, Body.windDownMsg "Server is now refusing new requests" w.2.2⟩,
        ⟨w.1, w.2.1⟩, [])
  | RouteKey.activeRequestsRoute =>
      let g := XTRNState.getState sys.gate
      (⟨200, Body.stateMsg g.1 g.2⟩, sys, [])
  | RouteKey.resetRoute =>
      let r := XTRNState.reset sys.gate sys.storage
      (⟨200, Body.resetMsg "State reset"⟩, ⟨r.1, r.2⟩, [])

/- ---------- Concrete fixtures for witnesses ---------- -/

/-- Toy platform decoders for concrete runs: `"%"` is a malformed
base64 string (every other string decodes to itself; in particular
`atob "" = ""`, as in the platform), and the JSON texts `"obj"` and
`"null"` parse while anything else does not. -/
def ext0 : ExtOps :=
  { atob := fun s => if s == "%" then none else some s,
    parseJson := fun s =>
      if s == "obj" then some (Json.obj [])
      else if s == "null" then some Json.null
      else none }

/-- An environment with all three OAuth bindings absent. -/
def env0 : OAuthEnvB := ⟨none, none, none⟩

/-- A schema accepting every value. -/
def schemaAny : Schema := ⟨fun j => Except.ok j, Json.obj []⟩

/-- A tool echoing its validated params. -/
def toolPing : Tool :=
  { name := "ping", description := "Returns its input",
    schema := schemaAny, tags := [],
    handler := fun ctx => Except.ok (XTRNResponse.json ctx.req) }

/-- A tool echoing the decoded credential (`ctx.token`). -/
def toolEcho : Tool :=
  { name := "echo", description := "Echoes the credential",
    schema := schemaAny, tags := [],
    handler := fun ctx =>
      Except.ok (XTRNResponse.json (Json.str (ctx.token.getD ""))) }

/-- A tool whose handler always throws. -/
def toolBoom : Tool :=
  { name := "boom", description := "Always throws",
    schema := schemaAny, tags := [],
    handler := fun _ => Except.error "boom" }

/-- A declared OAuth descriptor. -/
def oauth0 : OAuthConfig :=
  ⟨"google", "https://auth.example", "https://token.example", ["email"]⟩

/-- Declaration of an OAuth-only server. -/
def cfgO : ConfigType := ⟨none, some oauth0⟩

/-- An open server (no user config, no OAuth) with one tool. -/
def srv0 : XTRNServer :=
  { name := "pingserver", version := "1.0.0", config := ⟨none, none⟩,
    tools := [toolPing], userConfigSchema := none }

/-- An OAuth-only server with one tool. -/
def srvO : XTRNServer :=
  { name := "oauth-only", version := "1.0.0", config := cfgO,
    tools := [toolEcho], userConfigSchema := none }

/-- Registration options used twice for the duplicate-name run. -/
def pingOpts : ToolOptions :=
  { name := "ping", description := "Returns its input",
    schemaIsZod4 := true, schema := schemaAny, tags := none,
    handler := fun ctx => Except.ok (XTRNResponse.json ctx.req) }

/-- Register the same tool name twice on a fresh server. -/
def dupServer : Except String XTRNServer :=
  match registerTool (XTRNServer.create "dup" "1.0.0" ⟨none, none⟩) pingOpts with
  | Except.error e => Except.error e
  | Except.ok s1 => registerTool s1 pingOpts

/-- A fresh accepting deployment. -/
def sys0 : Sys := ⟨⟨0, false⟩, ⟨none⟩⟩

/-- A draining deployment with two requests in flight. -/
def sysD : Sys := ⟨⟨2, true⟩, ⟨some true⟩⟩

/-- A plain request: no headers, body text `"obj"`. -/
def req0 : Request := ⟨none, none, "obj"⟩

/- ---------- Gate lemmas ---------- -/

lemma runOps_cons (p : GateState × Storage) (o : GateOp) (os : List GateOp) :
    runOps p (o :: os) = runOps (runOp p o) os := rfl

lemma refuse_preserved (ops : List GateOp) :
    ∀ p : GateState × Storage, (∀ o ∈ ops, o ≠ GateOp.rst) →
      p.1.refuseRequests = true → (runOps p ops).1.refuseRequests = true := by
  induction ops with
  | nil => intro p _ h; exact h
  | cons o os ih =>
      intro p hops h
      have ho := hops o (List.mem_cons_self o os)
      have hos : ∀ o' ∈ os, o' ≠ GateOp.rst :=
        fun o' h' => hops o' (List.mem_cons_of_mem _ h')
      rw [runOps_cons]
      apply ih _ hos
      cases o with
      | acq => simp [runOp, XTRNState.tryAcquire, h]
      | rel => simpa [runOp, XTRNState.release] using h
      | wind => simp [runOp, XTRNState.windDown]
      | getSt => exact h
      | rst => exact absurd rfl ho

lemma active_nonneg (ops : List GateOp) :
    ∀ p : GateState × Storage, 0 ≤ p.1.activeRequests →
      0 ≤ (runOps p ops).1.activeRequests := by
  induction ops with
  | nil => intro p h; exact h
  | cons o os ih =>
      intro p h
      rw [runOps_cons]
      apply ih
      cases o with
      | acq =>
          by_cases hr : p.1.refuseRequests <;>
            simp [runOp, XTRNState.tryAcquire, hr] <;> omega
      | rel =>
          simp only [runOp, XTRNState.release]
          exact le_max_left _ _
      | wind => simpa [runOp, XTRNState.windDown] using h
      | getSt => exact h
      | rst => simp [runOp, XTRNState.reset]

lemma runOps_balance (ops : List GateOp) :
    ∀ (g : GateState) (st : Storage),
      g.refuseRequests = false →
      (∀ o ∈ ops, o = GateOp.acq ∨ o = GateOp.rel) →
      (∀ n : Nat, (countRel (ops.take n) : Int) ≤
        g.activeRequests + countAcq (ops.take n)) →
      (runOps (g, st) ops).1.activeRequests =
        g.activeRequests + countAcq ops - countRel ops := by
  induction ops with
  | nil => intro g st _ _ _; simp [runOps, countAcq, countRel]
  | cons o os ih =>
      intro g st hr hmem hpre
      have hmem' : ∀ o' ∈ os, o' = GateOp.acq ∨ o' = GateOp.rel :=
        fun o' h' => hmem o' (List.mem_cons_of_mem _ h')
      rcases hmem o (List.mem_cons_self o os) with h | h <;> subst h
      · rw [runOps_cons]
        have step : runOp (g, st) GateOp.acq =
            ({ g with activeRequests := g.activeRequests + 1 }, st) := by
          simp [runOp, XTRNState.tryAcquire, hr]
        rw [step]
        have hpre' : ∀ n : Nat, (countRel (os.take n) : Int) ≤
            ({ g with activeRequests := g.activeRequests + 1 } :
              GateState).activeRequests + countAcq (os.take n) := by
          intro n
          have h2 := hpre (n + 1)
          simp only [List.take_succ_cons, countAcq, countRel] at h2
          push_cast at h2 ⊢
          omega
        have := ih { g with activeRequests := g.activeRequests + 1 } st hr hmem' hpre'
        rw [this]
        simp only [countAcq, countRel]
        push_cast
        ring
      · rw [runOps_cons]
        have h1 : (1 : Int) ≤ g.activeRequests := by
          have h2 := hpre 1
          simp only [List.take_succ_cons, List.take_zero, countAcq, countRel] at h2
          push_cast at h2
          omega
        have step : runOp (g, st) GateOp.rel =
            ({ g with activeRequests := g.activeRequests - 1 }, st) := by
          simp only [runOp, XTRNState.release]
          congr 1
          have : max 0 (g.activeRequests - 1) = g.activeRequests - 1 := by omega
          simp [this]
        rw [step]
        have hpre' : ∀ n : Nat, (countRel (os.take n) : Int) ≤
            ({ g with activeRequests := g.activeRequests - 1 } :
              GateState).activeRequests + countAcq (os.take n) := by
          intro n
          have h2 := hpre (n + 1)
          simp only [List.take_succ_cons, countAcq, countRel] at h2
          push_cast at h2 ⊢
          omega
        have := ih { g with activeRequests := g.activeRequests - 1 } st hr hmem' hpre'
        rw [this]
        simp only [countAcq, countRel]
        push_cast
        ring

/- ---------- Pipeline lemmas ---------- -/

lemma countReleaseEv_append (l1 l2 : List Event) :
    countReleaseEv (l1 ++ l2) = countReleaseEv l1 + countReleaseEv l2 := by
  induction l1 with
  | nil => simp [countReleaseEv]
  | cons e es ih =>
      cases e
      all_goals simp [countReleaseEv, ih]
      all_goals omega

lemma toolRoute_no_release (ext : ExtOps) (envB : OAuthEnvB)
    (cfg : ConfigType) (ucs : Option (List UserField)) (tool : Tool)
    (req : Request) :
    countReleaseEv (toolRoute ext envB cfg ucs tool req).2 = 0 := by
  unfold toolRoute
  repeat' split
  all_goals simp [countReleaseEv]

lemma tryAcquire_refused (g : GateState) (h : g.refuseRequests = true) :
    XTRNState.tryAcquire g = (g, false, g.activeRequests) := by
  simp [XTRNState.tryAcquire, h]

/- ---------- Claim theorems ---------- -/

/-- Claim C1: for every tool invocation admitted by the middleware
(`tryAcquire` returned `allowed = true`), exactly one `release()` is
recorded, whatever the pipeline outcome (the statement quantifies over
every request, tool set and handler, hence over validation failures,
handler successes and thrown errors alike); for an invocation refused
at admission, no `release()` is recorded and the answer is the 503
wind-down response. -/
theorem release_guarantee (ext : ExtOps) (envB : OAuthEnvB)
    (server : XTRNServer) (name : String) (req : Request) (sys : Sys) :
    ((XTRNState.tryAcquire sys.gate).2.1 = true →
      countReleaseEv
        (handleRequest ext envB server (RouteKey.tool name) req sys).2.2 = 1) ∧
    ((XTRNState.tryAcquire sys.gate).2.1 = false →
      countReleaseEv
        (handleRequest ext envB server (RouteKey.tool name) req sys).2.2 = 0 ∧
      (handleRequest ext envB server (RouteKey.tool name) req sys).1 =
        ⟨503, Body.text "Server is winding down"⟩) := by
  constructor
  · intro h
    simp only [handleRequest, h, Bool.not_true, Bool.false_eq_true,
      if_false, countReleaseEv, countReleaseEv_append]
    rcases hf : server.tools.find? (fun t => t.name == name) with _ | t
    all_goals simp [hf, countReleaseEv, countReleaseEv_append,
      toolRoute_no_release]
  · intro h
    cases hr : sys.gate.refuseRequests with
    | false => simp [XTRNState.tryAcquire, hr] at h
    | true =>
        refine ⟨?_, ?_⟩ <;>
          simp [handleRequest, XTRNState.tryAcquire, hr, countReleaseEv]

/-- Witness for C1 at a concrete admitted invocation. -/
theorem release_guarantee_w :
    countReleaseEv
      (handleRequest ext0 env0 srv0 (RouteKey.tool "ping") req0 sys0).2.2 = 1 :=
  (release_guarantee ext0 env0 srv0 "ping" req0 sys0).1 rfl

/-- Claim C2 fails as stated: the two-call sequence `release` then
`tryAcquire` from the initial state contains N = 1 acquire and
M = 1 release (M ≤ N), yet ends with `activeRequests = 1 ≠ N − M = 0`,
because the early `release` is floored at 0. -/
theorem gate_monotonicity_cex :
    countAcq [GateOp.rel, GateOp.acq] = 1 ∧
    countRel [GateOp.rel, GateOp.acq] = 1 ∧
    (runOps initialGate [GateOp.rel, GateOp.acq]).1.activeRequests = 1 ∧
    ¬((1 : Int) = (countAcq [GateOp.rel, GateOp.acq] : Int)
        - countRel [GateOp.rel, GateOp.acq]) := by
  refine ⟨rfl, rfl, rfl, by decide⟩

/-- Claim C2 (amended): for a `tryAcquire`/`release` sequence with no
`windDown` in which no prefix contains more releases than acquires,
the final `activeRequests` from the initial state is exactly N − M;
and after any gate-call sequence whatsoever `activeRequests` is never
negative. -/
theorem gate_monotonicity (ops ops2 : List GateOp)
    (hmem : ∀ o ∈ ops, o = GateOp.acq ∨ o = GateOp.rel)
    (hpre : ∀ n : Nat, countRel (ops.take n) ≤ countAcq (ops.take n)) :
    (runOps initialGate ops).1.activeRequests =
      (countAcq ops : Int) - countRel ops ∧
    0 ≤ (runOps initialGate ops2).1.activeRequests := by
  constructor
  · have h := runOps_balance ops (XTRNState.create ⟨none⟩) ⟨none⟩ rfl hmem ?_
    · simpa [initialGate, XTRNState.create] using h
    · intro n
      have h2 := hpre n
      simp only [XTRNState.create, Option.getD]
      omega
  · exact active_nonneg ops2 initialGate (by simp [initialGate, XTRNState.create])

/-- Witness for C2 (amended) at concrete sequences. -/
theorem gate_monotonicity_w :
    (runOps initialGate [GateOp.acq]).1.activeRequests =
      (countAcq [GateOp.acq] : Int) - countRel [GateOp.acq] ∧
    0 ≤ (runOps initialGate [GateOp.rel]).1.activeRequests :=
  gate_monotonicity [GateOp.acq] [GateOp.rel] (by decide)
    (fun n => by
      cases n with
      | zero => simp [countAcq, countRel]
      | succ m => simp [List.take_succ_cons, countAcq, countRel])

/-- Claim C3: after `windDown()`, every later `tryAcquire()` refuses
as long as no `reset()` intervenes; a refused `tryAcquire()` mutates
nothing and reports the current count; and a second `windDown()` is
idempotent — it succeeds, leaves the very same (draining) state and
storage, and reports the current count. -/
theorem drain_one_way (s : GateState) (st : Storage) (ops : List GateOp)
    (hops : ∀ o ∈ ops, o ≠ GateOp.rst) :
    (XTRNState.tryAcquire
      (runOps ((XTRNState.windDown s st).1,
        (XTRNState.windDown s st).2.1) ops).1).2.1 = false ∧
    (∀ g : GateState, g.refuseRequests = true →
      XTRNState.tryAcquire g = (g, false, g.activeRequests)) ∧
    XTRNState.windDown (XTRNState.windDown s st).1
        (XTRNState.windDown s st).2.1 =
      ((XTRNState.windDown s st).1, (XTRNState.windDown s st).2.1,
        (XTRNState.windDown s st).1.activeRequests) ∧
    (XTRNState.windDown s st).1.refuseRequests = true := by
  refine ⟨?_, tryAcquire_refused, rfl, rfl⟩
  have href := refuse_preserved ops
    ((XTRNState.windDown s st).1, (XTRNState.windDown s st).2.1) hops rfl
  simp [XTRNState.tryAcquire, href]

/-- Witness for C3 at a concrete post-drain sequence. -/
theorem drain_one_way_w :
    (XTRNState.tryAcquire
      (runOps ((XTRNState.windDown ⟨0, false⟩ ⟨none⟩).1,
        (XTRNState.windDown ⟨0, false⟩ ⟨none⟩).2.1)
        [GateOp.acq, GateOp.rel]).1).2.1 = false :=
  (drain_one_way ⟨0, false⟩ ⟨none⟩ [GateOp.acq, GateOp.rel] (by decide)).1

/-- Claim C4: persistence asymmetry — re-creating the gate actor from
the storage that `windDown()` persisted yields `activeRequests = 0`
with `refusing = true` on `getState()`, and a re-created actor's
counter is 0 whatever the storage held. -/
theorem persistence_asymmetry (s : GateState) (st st' : Storage) :
    XTRNState.getState
      (XTRNState.create (XTRNState.windDown s st).2.1) = (0, true) ∧
    (XTRNState.create st').activeRequests = 0 :=
  ⟨rfl, rfl⟩

/-- Claim C5 (amended): the admitted-request pipeline validates in
the fixed order.  (a) A malformed config header with a truthy
(non-empty) value — base64 or JSON decode failure — yields the
config-header 400 with an empty event trace: the body is never
parsed.  (b) A config-validation failure likewise yields its 400
before any body parse.  (c) When the config, config validation and
credential steps all pass and the body is malformed, the 400 is the
body-parse failure, and the single recorded event is the body parse
attempt.  (d) An empty-valued config header is falsy in the source's
`if (configHeader)` guard and is treated as absent: the working
config is the empty object and the pipeline proceeds. -/
theorem validation_ordering :
    (∀ (ext : ExtOps) (envB : OAuthEnvB) (cfg : ConfigType)
        (ucs : Option (List UserField)) (tool : Tool) (req : Request)
        (h : String),
        req.configHeader = some h →
        h ≠ "" →
        (ext.atob h = none ∨
          ∃ d, ext.atob h = some d ∧ ext.parseJson d = none) →
        toolRoute ext envB cfg ucs tool req =
          (XTRNResponse.badRequestArgs
            "Invalid X-XTRN-Config header: must be base64-encoded JSON", []) ∧
        countParseBodyEv (toolRoute ext envB cfg ucs tool req).2 = 0) ∧
    (∀ (ext : ExtOps) (envB : OAuthEnvB) (cfg : ConfigType)
        (fields : List UserField) (tool : Tool) (req : Request)
        (uc0 : Json) (e : String),
        parseConfigHeader ext req.configHeader = Except.ok uc0 →
        validateUserConfig fields uc0 = Except.error e →
        toolRoute ext envB cfg (some fields) tool req =
          (XTRNResponse.badRequestArgs ("Config validation failed: " ++ e),
            [])) ∧
    (∀ (ext : ExtOps) (envB : OAuthEnvB) (cfg : ConfigType)
        (ucs : Option (List UserField)) (tool : Tool) (req : Request)
        (uc0 uc : Json) (rt : Option String),
        parseConfigHeader ext req.configHeader = Except.ok uc0 →
        validateConfigJson ucs uc0 = Except.ok uc →
        decodeToken ext req.tokenHeader = Except.ok rt →
        (cfg.oauthConfig.isSome && !tokenTruthy rt) = false →
        ext.parseJson req.body = none →
        toolRoute ext envB cfg ucs tool req =
          (XTRNResponse.badRequestArgs "Invalid JSON body",
            [Event.parseBodyEv])) ∧
    (∀ ext : ExtOps,
        parseConfigHeader ext (some "") = Except.ok (Json.obj [])) := by
  refine ⟨?_, ?_, ?_, fun ext => rfl⟩
  · intro ext envB cfg ucs tool req h hch hne hbad
    have hbeq : (h == "") = false := beq_eq_false_iff_ne.mpr hne
    have hp : parseConfigHeader ext req.configHeader =
        Except.error (XTRNResponse.badRequestArgs
          "Invalid X-XTRN-Config header: must be base64-encoded JSON") := by
      rcases hbad with hb | ⟨d, hd, hpj⟩
      · simp [parseConfigHeader, hch, hbeq, hb]
      · simp [parseConfigHeader, hch, hbeq, hd, hpj]
    constructor
    · simp [toolRoute, hp]
    · simp [toolRoute, hp, countParseBodyEv]
  · intro ext envB cfg fields tool req uc0 e h1 hv
    simp [toolRoute, h1, validateConfigJson, hv]
  · intro ext envB cfg ucs tool req uc0 uc rt h1 h2 h3 h4 h5
    simp [toolRoute, h1, h2, h3, h4, h5]

/-- Witness for C5 at concrete requests: a malformed config header
against the open server, and a well-formed config header with a
malformed body. -/
theorem validation_ordering_w :
    (toolRoute ext0 env0 ⟨none, none⟩ none toolPing
        ⟨some "%", none, "obj"⟩ =
      (XTRNResponse.badRequestArgs
        "Invalid X-XTRN-Config header: must be base64-encoded JSON", [])) ∧
    toolRoute ext0 env0 ⟨none, none⟩ none toolPing
        ⟨some "obj", none, "bad"⟩ =
      (XTRNResponse.badRequestArgs "Invalid JSON body",
        [Event.parseBodyEv]) :=
  ⟨(validation_ordering.1 ext0 env0 ⟨none, none⟩ none toolPing
      ⟨some "%", none, "obj"⟩ "%" rfl (by decide) (Or.inl rfl)).1,
   validation_ordering.2.2.1 ext0 env0 ⟨none, none⟩ none toolPing
      ⟨some "obj", none, "bad"⟩ (Json.obj []) (Json.obj []) none
      rfl rfl rfl rfl rfl⟩

/-- Claim C5 fails as stated: an `X-XTRN-Config` header carrying the
empty string is malformed as base64-encoded JSON (it decodes to `""`,
which does not parse as JSON), yet the source's `if (configHeader)`
truthiness guard treats the falsy value as an absent header, so the
call is not answered 400 — the body *is* parsed, the handler runs,
and the response is the handler's 200. -/
theorem validation_ordering_cex :
    ext0.atob "" = some "" ∧
    ext0.parseJson "" = none ∧
    (toolRoute ext0 env0 ⟨none, none⟩ none toolPing
      ⟨some "", none, "obj"⟩).1.status = 200 ∧
    countParseBodyEv
      (toolRoute ext0 env0 ⟨none, none⟩ none toolPing
        ⟨some "", none, "obj"⟩).2 = 1 :=
  ⟨rfl, rfl, rfl, rfl⟩

/-- Claim C6: any error thrown while the tool handler executes (after
the context was assembled) is caught by the route's failure boundary
and mapped to a 500 response whose body is the error's message; the
route returns this response rather than letting the error escape. -/
theorem handler_error_to_500 (ext : ExtOps) (envB : OAuthEnvB)
    (cfg : ConfigType) (ucs : Option (List UserField)) (tool : Tool)
    (req : Request) (uc0 uc : Json) (rt : Option String)
    (body params : Json) (msg : String)
    (h1 : parseConfigHeader ext req.configHeader = Except.ok uc0)
    (h2 : validateConfigJson ucs uc0 = Except.ok uc)
    (h3 : decodeToken ext req.tokenHeader = Except.ok rt)
    (h4 : (cfg.oauthConfig.isSome && !tokenTruthy rt) = false)
    (h5 : ext.parseJson req.body = some body)
    (h6 : tool.schema.validate body = Except.ok params)
    (h7 : tool.handler (buildCtx cfg envB params uc rt) = Except.error msg) :
    toolRoute ext envB cfg ucs tool req =
      (XTRNResponse.error msg,
        [Event.parseBodyEv,
          Event.invokeEv (buildCtx cfg envB params uc rt)]) := by
  simp [toolRoute, h1, h2, h3, h4, h5, h6, h7]

/-- Witness for C6: a tool whose handler always throws answers 500
with the thrown message. -/
theorem handler_error_to_500_w :
    toolRoute ext0 env0 ⟨none, none⟩ none toolBoom req0 =
      (XTRNResponse.error "boom",
        [Event.parseBodyEv,
          Event.invokeEv
            (buildCtx ⟨none, none⟩ env0 (Json.obj []) (Json.obj []) none)]) :=
  handler_error_to_500 ext0 env0 ⟨none, none⟩ none toolBoom req0
    (Json.obj []) (Json.obj []) none (Json.obj []) (Json.obj []) "boom"
    rfl rfl rfl rfl rfl rfl rfl

/-- Claim C7 fails as stated: on an OAuth server, a credential header
whose value is the empty string is valid base64 (`atob "" = ""`), yet
the call is answered 400 with the required-header message and the
handler is never invoked, because the decoded empty credential is
falsy in the `!refreshToken` presence check. -/
theorem oauth_credential_cex :
    ext0.atob "" = some "" ∧
    toolRoute ext0 env0 cfgO none toolEcho ⟨none, some "", "obj"⟩ =
      (XTRNResponse.badRequestArgs
        "X-XTRN-Token header is required for OAuth-enabled servers", []) ∧
    countInvokeEv
      (toolRoute ext0 env0 cfgO none toolEcho ⟨none, some "", "obj"⟩).2 = 0 :=
  ⟨rfl, rfl, rfl⟩

/-- Claim C7 (amended): on a server declaring a credential descriptor
(with the config steps passing), (i) a call with no credential header
is answered 400 with the required-header message; (ii) a call whose
credential header fails base64 decode is answered 400 with the
token-header message; (iii) a call whose credential header decodes to
a non-empty string reaches the handler with the decoded credential
attached as `ctx.token` (the empty decoded string is instead refused
as missing, being falsy in the source's presence check). -/
theorem oauth_credential_handling :
    (∀ (ext : ExtOps) (envB : OAuthEnvB) (cfg : ConfigType)
        (ucs : Option (List UserField)) (tool : Tool) (req : Request)
        (uc0 uc : Json) (oc : OAuthConfig),
        cfg.oauthConfig = some oc →
        parseConfigHeader ext req.configHeader = Except.ok uc0 →
        validateConfigJson ucs uc0 = Except.ok uc →
        req.tokenHeader = none →
        toolRoute ext envB cfg ucs tool req =
          (XTRNResponse.badRequestArgs
            "X-XTRN-Token header is required for OAuth-enabled servers",
            [])) ∧
    (∀ (ext : ExtOps) (envB : OAuthEnvB) (cfg : ConfigType)
        (ucs : Option (List UserField)) (tool : Tool) (req : Request)
        (uc0 uc : Json) (th : String),
        parseConfigHeader ext req.configHeader = Except.ok uc0 →
        validateConfigJson ucs uc0 = Except.ok uc →
        req.tokenHeader = some th →
        ext.atob th = none →
        toolRoute ext envB cfg ucs tool req =
          (XTRNResponse.badRequestArgs
            "Invalid X-XTRN-Token header: must be base64-encoded", [])) ∧
    (∀ (ext : ExtOps) (envB : OAuthEnvB) (cfg : ConfigType)
        (ucs : Option (List UserField)) (tool : Tool) (req : Request)
        (uc0 uc : Json) (oc : OAuthConfig) (th t : String)
        (body params : Json) (resp : Response),
        cfg.oauthConfig = some oc →
        parseConfigHeader ext req.configHeader = Except.ok uc0 →
        validateConfigJson ucs uc0 = Except.ok uc →
        req.tokenHeader = some th →
        ext.atob th = some t →
        t ≠ "" →
        ext.parseJson req.body = some body →
        tool.schema.validate body = Except.ok params →
        tool.handler (buildCtx cfg envB params uc (some t)) = Except.ok resp →
        (buildCtx cfg envB params uc (some t)).token = some t ∧
        toolRoute ext envB cfg ucs tool req =
          (resp, [Event.parseBodyEv,
            Event.invokeEv (buildCtx cfg envB params uc (some t))])) := by
  refine ⟨?_, ?_, ?_⟩
  · intro ext envB cfg ucs tool req uc0 uc oc hoc h1 h2 htn
    simp [toolRoute, h1, h2, decodeToken, htn, hoc, tokenTruthy]
  · intro ext envB cfg ucs tool req uc0 uc th h1 h2 htn hat
    simp [toolRoute, h1, h2, decodeToken, htn, hat]
  · intro ext envB cfg ucs tool req uc0 uc oc th t body params resp
      hoc h1 h2 htn hat hne h5 h6 h7
    have hbeq : (t == "") = false := beq_eq_false_iff_ne.mpr hne
    constructor
    · simp [buildCtx, hoc, tokenTruthy, hbeq]
    · simp [toolRoute, h1, h2, decodeToken, htn, hat, hoc, tokenTruthy,
        hbeq, h5, h6, h7]

/-- Witness for C7 (amended): a non-empty credential decoded from the
header reaches the echoing handler as `ctx.token`. -/
theorem oauth_credential_handling_w :
    (buildCtx cfgO env0 (Json.obj []) (Json.obj [])
        (some "tok")).token = some "tok" ∧
    toolRoute ext0 env0 cfgO none toolEcho ⟨none, some "tok", "obj"⟩ =
      (XTRNResponse.json (Json.str "tok"),
        [Event.parseBodyEv,
          Event.invokeEv
            (buildCtx cfgO env0 (Json.obj []) (Json.obj [])
              (some "tok"))]) :=
  oauth_credential_handling.2.2 ext0 env0 cfgO none toolEcho
    ⟨none, some "tok", "obj"⟩ (Json.obj []) (Json.obj []) oauth0
    "tok" "tok" (Json.obj []) (Json.obj [])
    (XTRNResponse.json (Json.str "tok"))
    rfl rfl rfl rfl rfl (by decide) rfl rfl rfl

/-- Claim C8: the `/details` route is mounted outside the `/tools/*`
middleware: while the gate is draining, a GET of `/details` still
answers 200 with the self-description document (and touches neither
gate nor storage), whereas a POST to any `/tools/{name}` route in the
same state is refused with 503. -/
theorem details_not_gated (ext : ExtOps) (envB : OAuthEnvB)
    (server : XTRNServer) (name : String) (req req' : Request) (sys : Sys)
    (h : sys.gate.refuseRequests = true) :
    handleRequest ext envB server RouteKey.details req' sys =
      (⟨200, Body.detailsDoc (buildDetails server envB)⟩, sys, []) ∧
    (handleRequest ext envB server (RouteKey.tool name) req sys).1 =
      ⟨503, Body.text "Server is winding down"⟩ := by
  refine ⟨rfl, ?_⟩
  simp [handleRequest, XTRNState.tryAcquire, h]

/-- Witness for C8 on a concrete draining deployment. -/
theorem details_not_gated_w :
    handleRequest ext0 env0 srv0 RouteKey.details req0 sysD =
      (⟨200, Body.detailsDoc (buildDetails srv0 env0)⟩, sysD, []) ∧
    (handleRequest ext0 env0 srv0 (RouteKey.tool "ping") req0 sysD).1 =
      ⟨503, Body.text "Server is winding down"⟩ :=
  details_not_gated ext0 env0 srv0 "ping" req0 req0 sysD rfl

/-- Claim C9 fails: registering the same tool name twice on one
server is accepted — both registrations return success and the
registry ends with two tools named `"ping"`; no construction-time
error is raised. -/
theorem duplicate_registration_cex :
    (match dupServer with
     | Except.ok s => s.tools.map Tool.name
     | Except.error _ => []) = ["ping", "ping"] := rfl

/-- Claim C9 (amended): `registerTool` performs no duplicate-name
check.  It fails exactly when the schema is not Zod v4 (the only
construction-time registration error); otherwise it succeeds and
appends the tool — a duplicate name included — to the registry. -/
theorem register_tool_characterization (s : XTRNServer) (o : ToolOptions) :
    registerTool s o =
      (if o.schemaIsZod4 then
        Except.ok { s with tools := s.tools ++ [mkTool o] }
      else
        Except.error ("Tool \"" ++ o.name ++
          "\" must use a Zod v4 schema. Zod v3 schemas are not supported.")) := by
  cases h : o.schemaIsZod4 <;> simp [registerTool, h]

/-- Claim C10: on a server declaring an OAuth descriptor, `/details`
always answers 200 with the document, and each of the three secret
fields is the environment binding when present and the empty string
when the binding is absent (`?? ""`), never an error or an omitted
field. -/
theorem details_missing_bindings (ext : ExtOps) (envB : OAuthEnvB)
    (server : XTRNServer) (req : Request) (sys : Sys) (oc : OAuthConfig)
    (h : server.config.oauthConfig = some oc) :
    handleRequest ext envB server RouteKey.details req sys =
      (⟨200, Body.detailsDoc (buildDetails server envB)⟩, sys, []) ∧
    (buildDetails server envB).oauth = some
      { provider := oc.provider,
        authorization_url := oc.authorization_url,
        token_url := oc.token_url, scopes := oc.scopes,
        client_id := envB.OAUTH_CLIENT_ID.getD "",
        client_secret := envB.OAUTH_CLIENT_SECRET.getD "",
        callback_url := envB.OAUTH_CALLBACK_URL.getD "" } :=
  ⟨rfl, by simp [buildDetails, h]⟩

/-- Witness for C10 on the OAuth server with all three bindings
absent: every secret field resolves to the empty string. -/
theorem details_missing_bindings_w :
    handleRequest ext0 env0 srvO RouteKey.details req0 sys0 =
      (⟨200, Body.detailsDoc (buildDetails srvO env0)⟩, sys0, []) ∧
    (buildDetails srvO env0).oauth = some
      { provider := "google",
        authorization_url := "https://auth.example",
        token_url := "https://token.example", scopes := ["email"],
        client_id := "", client_secret := "", callback_url := "" } :=
  details_missing_bindings ext0 env0 srvO req0 sys0 oauth0 rfl
